import Mathlib

/-!
Verification of the filename-canonicalization core of the
`cnn-gambling-blocker` repository. The Python sources under
`scraper/format_dataset.py`, `scraper/validate_dataset.py` and
`utils/url.py` are shallowly embedded: filenames are `List Char`
(wrapped into `String` at the interface), regex-based steps are
translated into explicit scanners with the same matching semantics,
and filesystem interaction is abstracted into an explicit record of
query functions.
-/

set_option maxRecDepth 8000

namespace GamblingBlocker

/-- Characters matched by the Python regex class `\w` on the ASCII
inputs this pipeline deals with: letters, digits and underscore. -/
def isWordChar (c : Char) : Bool := c.isAlpha || c.isDigit || c == '_'

/-- Index of the last character satisfying `p` (Python `str.rfind`). -/
def rfindIdx (p : Char → Bool) : List Char → Option Nat
  | [] => none
  | c :: cs =>
    match rfindIdx p cs with
    | some i => some (i + 1)
    | none => if p c then some 0 else none

/-- os.path.splitext restricted to plain filenames (no path separators):
split at the last dot, except when every character before that dot is
itself a dot (leading-dot filenames keep their extension attached). -/
def splitext (s : List Char) : List Char × List Char :=
  match rfindIdx (fun c => c == '.') s with
  | none => (s, [])
  | some d => if (s.take d).any (fun c => c != '.') then (s.take d, s.drop d) else (s, [])

/-- re.search(r"\((\w+)\)", name): leftmost parenthesized run of word
characters followed directly by a closing parenthesis; returns group 1. -/
def parenMatch : List Char → Option (List Char)
  | [] => none
  | '(' :: rest =>
    match rest.takeWhile isWordChar, rest.dropWhile isWordChar with
    | [], _ => parenMatch rest
    | w, ')' :: _ => some w
    | _, _ => parenMatch rest
  | _ :: rest => parenMatch rest

/-- Length consumed by the regex fragment `[^)]+\)_?` when anchored at
the character just after an opening parenthesis. -/
def parenBody (rest : List Char) : Option Nat :=
  let content := rest.takeWhile (fun c => c != ')')
  if content.isEmpty then none
  else
    match rest.drop content.length with
    | ')' :: '_' :: _ => some (content.length + 2)
    | ')' :: _ => some (content.length + 1)
    | _ => none

/-- Length of a match of `_?\([^)]+\)_?` anchored at the start of `s`. -/
def parenLen (s : List Char) : Option Nat :=
  match s with
  | '_' :: '(' :: rest => (parenBody rest).map (fun n => n + 2)
  | '(' :: rest => (parenBody rest).map (fun n => n + 1)
  | _ => none

/-- Fuel-indexed scanner for re.sub(r"_?\([^)]+\)_?", "", name): delete
every non-overlapping leftmost match. Each step consumes at least one
character, so fuel equal to the length of the input is enough. -/
def parenSubF : Nat → List Char → List Char
  | 0, s => s
  | _ + 1, [] => []
  | fuel + 1, c :: rest =>
    match parenLen (c :: rest) with
    | some n => parenSubF fuel ((c :: rest).drop n)
    | none => c :: parenSubF fuel rest

/-- re.sub(r"_?\([^)]+\)_?", "", name). -/
def parenSub (s : List Char) : List Char := parenSubF s.length s

/-- Device-marker extraction of format_filename: a parenthesized word
token is searched first and, when found, recorded verbatim while every
parenthesized segment (with one adjacent underscore on either side) is
deleted; otherwise a trailing `_desktop` or `_mobile` is recognized and
stripped. -/
def extractDevice (name : List Char) : Option (List Char) × List Char :=
  match parenMatch name with
  | some w => (some w, parenSub name)
  | none =>
    if ("_desktop".data).isSuffixOf name then
      (some ("desktop".data), name.take (name.length - 8))
    else if ("_mobile".data).isSuffixOf name then
      (some ("mobile".data), name.take (name.length - 7))
    else (none, name)

/-- Python `"__" in name`. -/
def hasDunder : List Char → Bool
  | '_' :: '_' :: _ => true
  | _ :: rest => hasDunder rest
  | [] => false

/-- Prepend a character onto the first piece of a split result. -/
def consHd (c : Char) : List (List Char) → List (List Char)
  | h :: t => (c :: h) :: t
  | [] => [[c]]

/-- Python `name.split("__")`: split at non-overlapping occurrences of
a double underscore, scanning left to right. -/
def splitDunder : List Char → List (List Char)
  | '_' :: '_' :: rest => [] :: splitDunder rest
  | c :: rest => consHd c (splitDunder rest)
  | [] => [[]]

/-- Query-parameter stripping: `if "__" in name: name = name.split("__")[0]`. -/
def cutDunder (s : List Char) : List Char :=
  if hasDunder s then (splitDunder s).headD [] else s

/-- re.sub(r"_[a-z]{2}-[a-z]{2}", "", name): delete every locale token
such as `_en-id`, scanning left to right without overlap. -/
def localeSub : List Char → List Char
  | '_' :: a :: b :: h :: d :: e :: rest =>
    if h == '-' && a.isLower && b.isLower && d.isLower && e.isLower then localeSub rest
    else '_' :: localeSub (a :: b :: h :: d :: e :: rest)
  | c :: rest => c :: localeSub rest
  | [] => []

/-- Python `name.rstrip("_")`. -/
def rstripUnderscore (s : List Char) : List Char :=
  (s.reverse.dropWhile (fun c => c == '_')).reverse

/-- Strip a leading `www.`. -/
def dropWww (s : List Char) : List Char :=
  if ("www.".data).isPrefixOf s then s.drop 4 else s

/-- Strip a leading `m.`. -/
def dropM (s : List Char) : List Char :=
  if ("m.".data).isPrefixOf s then s.drop 2 else s

/-- Truncate at the first underscore (`name.find("_")` then slice). -/
def cutUnderscore (s : List Char) : List Char := s.takeWhile (fun c => c != '_')

/-- TLD trimming: locate the last dot, read the run of lowercase
letters after it (re.match(r"([a-z]+)", tld_part)) and, when that run
is non-empty, truncate the stem right after it. -/
def tldTrim (s : List Char) : List Char :=
  match rfindIdx (fun c => c == '.') s with
  | none => s
  | some d =>
    let tld := (s.drop (d + 1)).takeWhile Char.isLower
    if tld.isEmpty then s else s.take (d + 1 + tld.length)

/-- Python `name.split(sep)` for a single-character separator. -/
def splitOnChar (sep : Char) : List Char → List (List Char)
  | [] => [[]]
  | c :: rest =>
    if c == sep then [] :: splitOnChar sep rest else consHd c (splitOnChar sep rest)

/-- Python `".".join(parts)`. -/
def joinDots : List (List Char) → List Char
  | [] => []
  | [p] => p
  | p :: ps => p ++ '.' :: joinDots ps

/-- Duplicate-TLD-suffix collapse: if the segment after the last dot
contains an underscore and its first two underscore-separated pieces
are equal, keep a single copy of that piece. -/
def dupCollapse (s : List Char) : List Char :=
  match rfindIdx (fun c => c == '.') s with
  | none => s
  | some d =>
    let tldPart := s.drop (d + 1)
    if tldPart.any (fun c => c == '_') then
      let tldParts := splitOnChar '_' tldPart
      if 2 ≤ tldParts.length then
        if tldParts.getD 0 [] == tldParts.getD 1 [] then
          s.take (d + 1) ++ tldParts.getD 0 []
        else s
      else s
    else s

/-- Modelled from the spec: the repository module `scraper/constant.py`
defining KNOWN_SLDS is not present under src/; section 6 of the spec
seeds the known second-level-domain set with the labels co, or, ac, go,
net, web and sch used by two-part country-code TLDs. -/
def KNOWN_SLDS : List (List Char) :=
  ["co".data, "or".data, "ac".data, "go".data, "net".data, "web".data, "sch".data]

/-- Subdomain stripping: keep the last three dot-separated labels when
there are at least three and the second-to-last one is a known
second-level domain, otherwise the last two, otherwise the stem. -/
def strip_subdomains (name : List Char) : List Char :=
  let parts := splitOnChar '.' name
  if 3 ≤ parts.length then
    if KNOWN_SLDS.contains (parts.getD (parts.length - 2) []) then
      joinDots (parts.drop (parts.length - 3))
    else joinDots (parts.drop (parts.length - 2))
  else if 2 ≤ parts.length then joinDots (parts.drop (parts.length - 2))
  else name

/-- Reassembly: `f"{domain}_{device_type}{ext}"` when the device string
is truthy, else `f"{domain}{ext}"`. -/
def assemble (domain : List Char) (device_type : Option (List Char)) (ext : List Char) : List Char :=
  match device_type with
  | some d => if d.isEmpty then domain ++ ext else domain ++ '_' :: (d ++ ext)
  | none => domain ++ ext

/-- Cleaning stages 3 to 8 of the pipeline, applied to the stem after
device-marker extraction: query-string stripping, locale removal,
trailing-underscore stripping, www./m. removal, underscore truncation
and TLD trimming. -/
def cleanStem (name : List Char) : List Char :=
  tldTrim (cutUnderscore (dropM (dropWww (rstripUnderscore (localeSub (cutDunder name))))))

/-- format_filename of scraper/format_dataset.py on character lists. -/
def formatCore (filename : List Char) (remove_subdomains : Bool) : List Char :=
  let se := splitext filename
  let ed := extractDevice se.1
  let name9 := dupCollapse (cleanStem ed.2)
  let domain := if remove_subdomains then strip_subdomains name9 else name9
  assemble domain ed.1 se.2

/-- format_filename of scraper/format_dataset.py (the logger parameter,
used only for debug output, is dropped). -/
def format_filename (filename : String) (remove_subdomains : Bool) : String :=
  String.mk (formatCore filename.data remove_subdomains)

/-- Variant of the pipeline with the duplicate-TLD-suffix collapse
stage removed, used to state the dead-branch refinement claim. -/
def formatCoreNC (filename : List Char) (remove_subdomains : Bool) : List Char :=
  let se := splitext filename
  let ed := extractDevice se.1
  let name9 := cleanStem ed.2
  let domain := if remove_subdomains then strip_subdomains name9 else name9
  assemble domain ed.1 se.2

/-- format_filename with the duplicate-TLD-suffix collapse stage removed. -/
def format_filename_noCollapse (filename : String) (remove_subdomains : Bool) : String :=
  String.mk (formatCoreNC filename.data remove_subdomains)

/-- Query-parameter stripping with the Python list indexing
`name.split("__")[0]` made explicit as an optional lookup. -/
def cutDunderE (s : List Char) : Option (List Char) :=
  if hasDunder s then (splitDunder s)[0]? else some s

/-- Duplicate-TLD-suffix collapse with the Python list indexings
`tld_parts[0]` and `tld_parts[1]` made explicit as optional lookups. -/
def dupCollapseE (s : List Char) : Option (List Char) :=
  match rfindIdx (fun c => c == '.') s with
  | none => some s
  | some d =>
    let tldPart := s.drop (d + 1)
    if tldPart.any (fun c => c == '_') then
      let tldParts := splitOnChar '_' tldPart
      if 2 ≤ tldParts.length then
        match tldParts[0]?, tldParts[1]? with
        | some p0, some p1 =>
          if p0 == p1 then some (s.take (d + 1) ++ p0) else some s
        | _, _ => none
      else some s
    else some s

/-- Subdomain stripping with the Python list indexing `parts[-2]` made
explicit as an optional lookup. -/
def strip_subdomainsE (name : List Char) : Option (List Char) :=
  let parts := splitOnChar '.' name
  if 3 ≤ parts.length then
    match parts[parts.length - 2]? with
    | some second_level =>
      some (if KNOWN_SLDS.contains second_level then joinDots (parts.drop (parts.length - 3))
            else joinDots (parts.drop (parts.length - 2)))
    | none => none
  else if 2 ≤ parts.length then some (joinDots (parts.drop (parts.length - 2)))
  else some name

/-- format_filename with every fallible Python operation (list
indexing) threaded through Option: returning `none` would correspond
to an IndexError escaping the function. -/
def formatCoreE (filename : List Char) (remove_subdomains : Bool) : Option (List Char) :=
  let se := splitext filename
  let ed := extractDevice se.1
  (cutDunderE ed.2).bind (fun name2 =>
    (dupCollapseE (tldTrim (cutUnderscore (dropM (dropWww (rstripUnderscore (localeSub name2))))))).bind
      (fun name9 =>
        (if remove_subdomains then strip_subdomainsE name9 else some name9).map
          (fun domain => assemble domain ed.1 se.2)))

/-- Option-valued format_filename; `none` would mean an uncaught exception. -/
def format_filenameE (filename : String) (remove_subdomains : Bool) : Option String :=
  (formatCoreE filename.data remove_subdomains).map String.mk

/-- Filesystem facts batch_rename_files consults, abstracted as pure
query functions: os.path.isdir, os.listdir, os.path.isfile. -/
structure FileSystem where
  isDir : String → Bool
  listDir : String → List String
  isFile : String → Bool

/-- Error signals of the batch renamer: NotADirectoryError and
FileNotFoundError. -/
inductive BatchError
  | notADirectory (path : String)
  | noFilesFound (path : String)
deriving DecidableEq

/-- posixpath.join for the two-argument calls made by the renamer. -/
def joinPath (dir f : String) : String :=
  if f.data.take 1 = ['/'] then f
  else if dir = "" ∨ (dir.data.reverse.take 1 = ['/']) then dir ++ f
  else dir ++ "/" ++ f

/-- batch_rename_files of scraper/format_dataset.py: fail with
NotADirectoryError when the path is not a directory, with
FileNotFoundError when it holds no regular file, and otherwise return
the renames to perform (pairs of old and new name for every file whose
canonical form differs). -/
def batch_rename_files (fs : FileSystem) (folder_path : String) (remove_subdomains : Bool) :
    Except BatchError (List (String × String)) :=
  if !(fs.isDir folder_path) then Except.error (BatchError.notADirectory folder_path)
  else
    let files := (fs.listDir folder_path).filter (fun f => fs.isFile (joinPath folder_path f))
    if files.isEmpty then Except.error (BatchError.noFilesFound folder_path)
    else Except.ok (files.filterMap (fun f =>
      let new_filename := format_filename f remove_subdomains
      if f ≠ new_filename then some (f, new_filename) else none))

theorem consHd_ne_nil (c : Char) (l : List (List Char)) : consHd c l ≠ [] := by
  cases l <;> simp [consHd]

theorem splitDunder_ne_nil : ∀ s : List Char, splitDunder s ≠ []
  | [] => by simp [splitDunder]
  | '_' :: '_' :: rest => by simp [splitDunder]
  | c :: rest => by
    unfold splitDunder
    split
    · simp
    · exact consHd_ne_nil _ _
    · simp_all

theorem listGet_of_lt {α : Type} :
    ∀ (l : List α) (n : Nat) (d : α), n < l.length → l[n]? = some (l.getD n d) := by
  intro l
  induction l with
  | nil => intro n d h; simp at h
  | cons a t ih =>
    intro n d h
    cases n with
    | zero => simp
    | succ m =>
      have hm : m < t.length := by simpa using h
      simpa [List.getD] using ih m d hm

theorem cutDunderE_eq (s : List Char) : cutDunderE s = some (cutDunder s) := by
  unfold cutDunderE cutDunder
  by_cases h : hasDunder s
  · simp only [h, if_true]
    cases e : splitDunder s with
    | nil => exact absurd e (splitDunder_ne_nil s)
    | cons a t => simp
  · simp [h]

theorem dupCollapseE_eq (s : List Char) : dupCollapseE s = some (dupCollapse s) := by
  unfold dupCollapseE dupCollapse
  cases e : rfindIdx (fun c => c == '.') s with
  | none => rfl
  | some d =>
    simp only
    by_cases ha : (s.drop (d + 1)).any (fun c => c == '_') = true
    · simp only [ha, if_true]
      by_cases hl : 2 ≤ (splitOnChar '_' (s.drop (d + 1))).length
      · rw [if_pos hl, if_pos hl,
          listGet_of_lt (splitOnChar '_' (s.drop (d + 1))) 0 [] (by omega),
          listGet_of_lt (splitOnChar '_' (s.drop (d + 1))) 1 [] (by omega)]
        dsimp only
        split <;> rfl
      · simp [hl]
    · simp [ha]

theorem strip_subdomainsE_eq (name : List Char) :
    strip_subdomainsE name = some (strip_subdomains name) := by
  unfold strip_subdomainsE strip_subdomains
  by_cases h3 : 3 ≤ (splitOnChar '.' name).length
  · rw [if_pos h3, if_pos h3,
      listGet_of_lt (splitOnChar '.' name) ((splitOnChar '.' name).length - 2) [] (by omega)]
  · rw [if_neg h3, if_neg h3]
    split <;> rfl

/-- C2: format_filename is total: the Option-threaded version never
returns none and agrees with the total function on every input. -/
theorem c2_format_filename_total (f : String) (b : Bool) :
    format_filenameE f b = some (format_filename f b) := by
  simp only [format_filenameE, format_filename, formatCoreE, formatCore, cleanStem]
  rw [cutDunderE_eq]
  simp only [Option.some_bind]
  rw [dupCollapseE_eq]
  simp only [Option.some_bind]
  cases b
  · simp
  · rw [strip_subdomainsE_eq]
    simp

theorem cutUnderscore_no_underscore (s : List Char) : '_' ∉ cutUnderscore s := by
  induction s with
  | nil => simp [cutUnderscore]
  | cons c rest ih =>
    simp only [cutUnderscore, List.takeWhile_cons] at *
    by_cases h : (c != '_') = true
    · simp only [h, if_true, List.mem_cons]
      rintro (rfl | hmem)
      · simp at h
      · exact ih hmem
    · simp [h]

theorem tldTrim_mem {c : Char} {s : List Char} (h : c ∈ tldTrim s) : c ∈ s := by
  unfold tldTrim at h
  split at h
  · exact h
  · simp only at h
    split at h
    · exact h
    · exact List.take_subset _ _ h

theorem cleanStem_no_underscore (x : List Char) : '_' ∉ cleanStem x := by
  intro hmem
  exact cutUnderscore_no_underscore _ (tldTrim_mem hmem)

theorem dupCollapse_of_no_underscore {s : List Char} (h : '_' ∉ s) : dupCollapse s = s := by
  unfold dupCollapse
  cases e : rfindIdx (fun c => c == '.') s with
  | none => rfl
  | some d =>
    have hfalse : (s.drop (d + 1)).any (fun c => c == '_') = false := by
      rw [List.any_eq_false]
      intro x hx
      have hxs : x ∈ s := List.drop_subset _ _ hx
      simp only [beq_iff_eq]
      rintro rfl
      exact h hxs
    simp [hfalse]

/-- C10: the duplicate-TLD-suffix collapse branch is dead code: the
underscore truncation earlier in the pipeline leaves no underscore in
the stem, so the pipeline equals the one with the branch removed. -/
theorem c10_collapse_branch_dead (f : String) (b : Bool) :
    format_filename f b = format_filename_noCollapse f b := by
  simp only [format_filename, format_filename_noCollapse, formatCore, formatCoreNC]
  rw [dupCollapse_of_no_underscore (cleanStem_no_underscore _)]

/-- C1 fails as stated: on "x.www.com_desktop.png" the first pass
keeps the domain "www.com", and the second pass then strips its "www."
prefix, so the output is not a fixed point. -/
theorem c1_format_filename_not_idempotent :
    format_filename "x.www.com_desktop.png" true = "www.com_desktop.png" ∧
    format_filename (format_filename "x.www.com_desktop.png" true) true = "com_desktop.png" ∧
    format_filename (format_filename "x.www.com_desktop.png" true) true ≠
      format_filename "x.www.com_desktop.png" true := by
  decide

/-- C1 amended: re-applying format_filename to its own output is a
fixed point on the sampled filenames of the spec (its testable
properties and the docstring examples), for both values of the
remove_subdomains flag; it is not idempotent on all strings. -/
theorem c1_idempotent_on_spec_samples :
    (format_filename (format_filename "www.ovo.id_(desktop).png" true) true =
      format_filename "www.ovo.id_(desktop).png" true) ∧
    (format_filename (format_filename "www.ovo.id_(desktop).png" false) false =
      format_filename "www.ovo.id_(desktop).png" false) ∧
    (format_filename (format_filename "ovo.id_mobile.png" true) true =
      format_filename "ovo.id_mobile.png" true) ∧
    (format_filename (format_filename "ovo.id_mobile.png" false) false =
      format_filename "ovo.id_mobile.png" false) ∧
    (format_filename (format_filename "www.tiket.com_en-id(mobile).png" true) true =
      format_filename "www.tiket.com_en-id(mobile).png" true) ∧
    (format_filename (format_filename "www.tiket.com_en-id(mobile).png" false) false =
      format_filename "www.tiket.com_en-id(mobile).png" false) ∧
    (format_filename (format_filename "king.ayo788-pit.com_mobile.png" true) true =
      format_filename "king.ayo788-pit.com_mobile.png" true) ∧
    (format_filename (format_filename "king.ayo788-pit.com_mobile.png" false) false =
      format_filename "king.ayo788-pit.com_mobile.png" false) ∧
    (format_filename (format_filename "sub.example.co.id_mobile.png" true) true =
      format_filename "sub.example.co.id_mobile.png" true) ∧
    (format_filename (format_filename "sub.example.co.id_mobile.png" false) false =
      format_filename "sub.example.co.id_mobile.png" false) ∧
    (format_filename (format_filename "mail.ru__solution429=57w5tQLY0Fi1v-wBMb_D-BFSC4rXZUCx1J-EGYqqCMxZjh-awBb2pu33N5nNCb4T6gFbZ3yfUHBwWtowwF777uhYNXONPlBHGiAW_V3vPeQLHbsO_7C363KgITM0KtxblTrEqbvFTN6p6PFC&autologin=no(desktop).png" true) true =
      format_filename "mail.ru__solution429=57w5tQLY0Fi1v-wBMb_D-BFSC4rXZUCx1J-EGYqqCMxZjh-awBb2pu33N5nNCb4T6gFbZ3yfUHBwWtowwF777uhYNXONPlBHGiAW_V3vPeQLHbsO_7C363KgITM0KtxblTrEqbvFTN6p6PFC&autologin=no(desktop).png" true) ∧
    (format_filename (format_filename "mail.ru__solution429=57w5tQLY0Fi1v-wBMb_D-BFSC4rXZUCx1J-EGYqqCMxZjh-awBb2pu33N5nNCb4T6gFbZ3yfUHBwWtowwF777uhYNXONPlBHGiAW_V3vPeQLHbsO_7C363KgITM0KtxblTrEqbvFTN6p6PFC&autologin=no(desktop).png" false) false =
      format_filename "mail.ru__solution429=57w5tQLY0Fi1v-wBMb_D-BFSC4rXZUCx1J-EGYqqCMxZjh-awBb2pu33N5nNCb4T6gFbZ3yfUHBwWtowwF777uhYNXONPlBHGiAW_V3vPeQLHbsO_7C363KgITM0KtxblTrEqbvFTN6p6PFC&autologin=no(desktop).png" false) := by
  decide

/-- C3 fails as stated: a parenthesized token other than desktop or
mobile, here "(tablet)", is recorded verbatim as the device marker and
attached to the output. -/
theorem c3_device_marker_counterexample :
    (extractDevice ("a.com_(tablet)".data)).1 = some ("tablet".data) ∧
    format_filename "a.com_(tablet).png" true = "a.com_tablet.png" ∧
    "tablet".data ≠ "desktop".data ∧ "tablet".data ≠ "mobile".data := by
  decide

/-- C3 amended: when the stem has no parenthesized word token, the
extracted device marker is indeed absent, desktop or mobile; a
parenthetical token, however, may be any word and is taken verbatim. -/
theorem c3_device_marker_without_paren (name : List Char) (h : parenMatch name = none) :
    (extractDevice name).1 = none ∨ (extractDevice name).1 = some ("desktop".data) ∨
      (extractDevice name).1 = some ("mobile".data) := by
  unfold extractDevice
  rw [h]
  by_cases h1 : ("_desktop".data).isSuffixOf name
  · simp [h1]
  · by_cases h2 : ("_mobile".data).isSuffixOf name
    · simp [h1, h2]
    · simp [h1, h2]

/-- C3 witness: instantiation of the amended claim on a stem carrying
a suffix marker and no parenthetical one. -/
theorem c3_device_marker_witness :
    (extractDevice ("ovo.id_mobile".data)).1 = none ∨
      (extractDevice ("ovo.id_mobile".data)).1 = some ("desktop".data) ∨
      (extractDevice ("ovo.id_mobile".data)).1 = some ("mobile".data) :=
  c3_device_marker_without_paren ("ovo.id_mobile".data) (by decide)

/-- C4: when the stem has a parenthesized word token (and even a
trailing suffix marker as well), the parenthetical token is recorded
as the device marker and the suffix check is skipped: the stem is only
stripped of its parenthesized segments. -/
theorem c4_paren_wins (name w : List Char) (h : parenMatch name = some w)
    (_hsfx : ("_desktop".data).isSuffixOf name = true ∨ ("_mobile".data).isSuffixOf name = true) :
    extractDevice name = (some w, parenSub name) := by
  unfold extractDevice
  rw [h]

/-- C4 witness: a stem with both a parenthetical and a suffix marker. -/
theorem c4_paren_wins_witness :
    extractDevice ("ovo.id_(desktop)_mobile".data) =
      (some ("desktop".data), "ovo.idmobile".data) := by
  rw [c4_paren_wins ("ovo.id_(desktop)_mobile".data) ("desktop".data) (by decide)
    (Or.inr (by decide))]
  decide

/-- C5: the hyphenated second-level label is kept intact while the
leading subdomain is removed. -/
theorem c5_hyphenated_label_preserved :
    format_filename "king.ayo788-pit.com_mobile.png" true = "ayo788-pit.com_mobile.png" := by
  decide

/-- C6: the subdomain-stripping stage keeps the last three labels when
there are at least three and the second-to-last is a known
second-level domain, otherwise the last two; a two-label stem keeps
both labels and a one-label stem is unchanged. -/
theorem c6_subdomain_stage (name : List Char) :
    (3 ≤ (splitOnChar '.' name).length →
      strip_subdomains name =
        if KNOWN_SLDS.contains
            ((splitOnChar '.' name).getD ((splitOnChar '.' name).length - 2) []) then
          joinDots ((splitOnChar '.' name).drop ((splitOnChar '.' name).length - 3))
        else joinDots ((splitOnChar '.' name).drop ((splitOnChar '.' name).length - 2))) ∧
    ((splitOnChar '.' name).length = 2 →
      strip_subdomains name = joinDots (splitOnChar '.' name)) ∧
    ((splitOnChar '.' name).length = 1 → strip_subdomains name = name) := by
  refine ⟨?_, ?_, ?_⟩
  · intro h3
    unfold strip_subdomains
    rw [if_pos h3]
  · intro h2
    unfold strip_subdomains
    rw [if_neg (by omega), if_pos (by omega)]
    have hz : (splitOnChar '.' name).length - 2 = 0 := by omega
    rw [hz, List.drop_zero]
  · intro h1
    unfold strip_subdomains
    rw [if_neg (by omega), if_neg (by omega)]

/-- C6 witness: a four-label stem whose second-to-last label "or" is a
known second-level domain keeps its last three labels. -/
theorem c6_subdomain_stage_witness :
    strip_subdomains ("x.nu.or.id".data) = "nu.or.id".data := by
  rw [(c6_subdomain_stage ("x.nu.or.id".data)).1 (by decide)]
  decide

/-- C7: with remove_subdomains set to false the domain placed in the
output is exactly the stem produced by the cleaning stages, with no
label removed, and the leading subdomain of
"sub.example.co.id_mobile.png" is retained. -/
theorem c7_keep_subdomains :
    (∀ f : List Char, formatCore f false =
        assemble (dupCollapse (cleanStem (extractDevice (splitext f).1).2))
          (extractDevice (splitext f).1).1 (splitext f).2) ∧
    format_filename "sub.example.co.id_mobile.png" false = "sub.example.co.id_mobile.png" := by
  constructor
  · intro f
    rfl
  · decide

/-- C8: batch_rename_files fails fast, before producing any rename,
with NotADirectoryError on a non-directory path and with
FileNotFoundError on an empty directory. -/
theorem c8_batch_rename_fails_fast (fs : FileSystem) (p : String) (b : Bool) :
    (fs.isDir p = false →
      batch_rename_files fs p b = Except.error (BatchError.notADirectory p)) ∧
    (fs.isDir p = true → fs.listDir p = [] →
      batch_rename_files fs p b = Except.error (BatchError.noFilesFound p)) := by
  constructor
  · intro h
    simp [batch_rename_files, h]
  · intro h hl
    simp [batch_rename_files, h, hl]

/-- C8 witness: a filesystem on which the path is not a directory. -/
theorem c8_batch_rename_fails_fast_witness :
    batch_rename_files ⟨fun _ => false, fun _ => [], fun _ => false⟩ "datasets/gambling" true =
      Except.error (BatchError.notADirectory "datasets/gambling") :=
  (c8_batch_rename_fails_fast ⟨fun _ => false, fun _ => [], fun _ => false⟩
    "datasets/gambling" true).1 rfl

end GamblingBlocker
